import Mathlib

/-!
The loader/invoker shim `run_patch_client`.

A shallow embedding of `src/run_patch_client/run_patch_client.c`.

The program is one function, `main`, a straight line of host calls with early
returns.  The host (the dynamic loader of the operating system, the code of the
loaded library and the error stream) is outside the repository, so it is a
parameter of the embedding:

* `Host` gives the answers of the host calls whose result `main` inspects
  (`LoadLibrary`, `GetProcAddress`) and tells whether the call through the
  resolved function pointer comes back;
* every host call `main` makes is appended, in program order, to an event log
  that is passed through `main` as explicit state.

Pointers (`HMODULE`, the function pointer, `void*`) are natural numbers and the
null pointer is `0`, so the tests `lib == NULL` and `Patch == NULL` are
translated literally.
-/

namespace RunPatchClient

/-- Module handle returned by `LoadLibrary`: a pointer value, `NULL` on failure. -/
abbrev HMODULE := Nat

/-- Address returned by `GetProcAddress`: a pointer value, `NULL` on failure. -/
abbrev FARPROC := Nat

/-- The null pointer. -/
def NULL : Nat := 0

/-- Name handed to `GetProcAddress` (source line 19). -/
def patchSymbol : String := "Patch"

/-- Text of the first `fprintf(stderr, ...)` (source line 6). The format strings of the
program hold no conversion specification, so `fprintf` writes them as they are. -/
def usageMessage : String :=
  "Usage: <patchclient.dll path> \"<args for patchclient.dll>\"\n"

/-- Text of the second `fprintf(stderr, ...)` (source line 12). -/
def loadFailureMessage : String := "Failed to load patch client DLL\n"

/-- Text of the third `fprintf(stderr, ...)` (source line 21). -/
def noPatchMessage : String := "No `Patch` function found in patch client DLL\n"

/-- One host call made by `main`, with its arguments (and, for the two calls whose
result `main` looks at, the result). -/
inductive Event where
  | fprintf_stderr (text : String)
  | LoadLibrary (path : String) (result : HMODULE)
  | GetProcAddress (lib : HMODULE) (name : String) (result : FARPROC)
  | call (fn : FARPROC) (arg1 arg2 : Nat) (arg3 : String)
  | FreeLibrary (lib : HMODULE)
  deriving DecidableEq, Repr

/-- The host as `main` sees it.  `call fn a b s` is the call `fn(a, b, s)` through a
resolved function pointer: `none` when the call never comes back (it hangs or ends the
process), `some v` when it comes back, `v` being whatever the callee left as a result
(the pointer type in the source is `void (*)(void*, void*, const char*)`, so `main`
cannot read it).  The results of `fprintf` and `FreeLibrary` are discarded by the
source and are not part of the host. -/
structure Host where
  LoadLibrary : String → HMODULE
  GetProcAddress : HMODULE → String → FARPROC
  call : FARPROC → Nat → Nat → String → Option Int

/-- The function `main` of `run_patch_client.c`.  `argv` is the argument vector, program
name included, and `argc` is its length.  `log` is the event log before the run; the
result is the exit code (`none` when `main` never returns because the call into the
library never comes back) and the event log after the run. -/
def main (host : Host) (argv : List String) (log : List Event) :
    Option Int × List Event :=
  let argc := argv.length
  if argc ≠ 3 then
    let log := log ++ [Event.fprintf_stderr usageMessage]
    (some 1, log)
  else
    let lib := host.LoadLibrary (argv.getD 1 "")
    let log := log ++ [Event.LoadLibrary (argv.getD 1 "") lib]
    if lib = NULL then
      let log := log ++ [Event.fprintf_stderr loadFailureMessage]
      (some 1, log)
    else
      let Patch := host.GetProcAddress lib patchSymbol
      let log := log ++ [Event.GetProcAddress lib patchSymbol Patch]
      if Patch = NULL then
        let log := log ++ [Event.fprintf_stderr noPatchMessage]
        let log := log ++ [Event.FreeLibrary lib]
        (some 1, log)
      else
        let log := log ++ [Event.call Patch NULL NULL (argv.getD 2 "")]
        match host.call Patch NULL NULL (argv.getD 2 "") with
        | none => (none, log)
        | some _ =>
          let log := log ++ [Event.FreeLibrary lib]
          (some 0, log)

/-- What was written to the error stream, one entry per `fprintf`, in order. -/
def stderrOf (log : List Event) : List String :=
  log.filterMap fun e =>
    match e with
    | Event.fprintf_stderr s => some s
    | _ => none

/-- The four kinds of library operation. -/
inductive Op where
  | load
  | resolve
  | invoke
  | unload
  deriving DecidableEq, Repr

/-- Kind of library operation of an event; a write to the error stream is none. -/
def Event.op : Event → Option Op
  | Event.fprintf_stderr _ => none
  | Event.LoadLibrary _ _ => some Op.load
  | Event.GetProcAddress _ _ _ => some Op.resolve
  | Event.call _ _ _ _ => some Op.invoke
  | Event.FreeLibrary _ => some Op.unload

/-- The library operations of a log (the events other than writes), in order. -/
def libEvents (log : List Event) : List Event :=
  log.filter fun e => (Event.op e).isSome

/-- The kinds of the library operations of a log, in order. -/
def libOps (log : List Event) : List Op :=
  log.filterMap Event.op

/-- A host for examples: only `good.dll` and `nopatch.dll` load (handles 7 and 8), only
`good.dll` exports `Patch` (at address 42), and every call comes back. -/
def sampleHost : Host where
  LoadLibrary := fun p => if p = "good.dll" then 7 else if p = "nopatch.dll" then 8 else 0
  GetProcAddress := fun h n => if h = 7 ∧ n = "Patch" then 42 else 0
  call := fun _ _ _ _ => some 0

/-- A second host for examples.  It answers as the sample host does for `good.dll` and
for `Patch` in handle 7, and differently everywhere else: every other path loads (handle
9), every other lookup gives address 5, and a call gives back 1 instead of 0. -/
def otherHost : Host where
  LoadLibrary := fun p => if p = "good.dll" then 7 else 9
  GetProcAddress := fun h n => if h = 7 ∧ n = "Patch" then 42 else 5
  call := fun _ _ _ _ => some 1

section Paths

variable (host : Host) (argv : List String) (log : List Event)

/-- Path 1 (source lines 5-8): wrong argument count. -/
lemma main_bad_argc (h : argv.length ≠ 3) :
    main host argv log = (some 1, log ++ [Event.fprintf_stderr usageMessage]) := by
  simp [main, h]

/-- Path 2 (source lines 10-14): the load gives no handle. -/
lemma main_load_null (h : argv.length = 3) (hl : host.LoadLibrary (argv.getD 1 "") = NULL) :
    main host argv log =
      (some 1, log ++ [Event.LoadLibrary (argv.getD 1 "") NULL,
                       Event.fprintf_stderr loadFailureMessage]) := by
  simp only [main, h, hl, ne_eq, not_true_eq_false, if_false, if_true, List.append_assoc,
    List.cons_append, List.nil_append]

/-- Path 3 (source lines 19-24): no `Patch` in the loaded library. -/
lemma main_patch_null (h : argv.length = 3) (hl : host.LoadLibrary (argv.getD 1 "") ≠ NULL)
    (hp : host.GetProcAddress (host.LoadLibrary (argv.getD 1 "")) patchSymbol = NULL) :
    main host argv log =
      (some 1, log ++ [Event.LoadLibrary (argv.getD 1 "") (host.LoadLibrary (argv.getD 1 "")),
                       Event.GetProcAddress (host.LoadLibrary (argv.getD 1 "")) patchSymbol NULL,
                       Event.fprintf_stderr noPatchMessage,
                       Event.FreeLibrary (host.LoadLibrary (argv.getD 1 ""))]) := by
  simp only [main, h, hl, hp, ne_eq, not_true_eq_false, if_false, if_true, List.append_assoc,
    List.cons_append, List.nil_append]

/-- Path 4 (source lines 25-29): `Patch` is called and comes back. -/
lemma main_call_returns (h : argv.length = 3) (hl : host.LoadLibrary (argv.getD 1 "") ≠ NULL)
    (hp : host.GetProcAddress (host.LoadLibrary (argv.getD 1 "")) patchSymbol ≠ NULL) (v : Int)
    (hc : host.call (host.GetProcAddress (host.LoadLibrary (argv.getD 1 "")) patchSymbol)
            NULL NULL (argv.getD 2 "") = some v) :
    main host argv log =
      (some 0, log ++ [Event.LoadLibrary (argv.getD 1 "") (host.LoadLibrary (argv.getD 1 "")),
                       Event.GetProcAddress (host.LoadLibrary (argv.getD 1 "")) patchSymbol
                         (host.GetProcAddress (host.LoadLibrary (argv.getD 1 "")) patchSymbol),
                       Event.call (host.GetProcAddress (host.LoadLibrary (argv.getD 1 "")) patchSymbol)
                         NULL NULL (argv.getD 2 ""),
                       Event.FreeLibrary (host.LoadLibrary (argv.getD 1 ""))]) := by
  simp only [main, h, hl, hp, hc, ne_eq, not_true_eq_false, if_false, if_true,
    List.append_assoc, List.cons_append, List.nil_append]

/-- Path 5 (source line 25): `Patch` is called and never comes back. -/
lemma main_call_hangs (h : argv.length = 3) (hl : host.LoadLibrary (argv.getD 1 "") ≠ NULL)
    (hp : host.GetProcAddress (host.LoadLibrary (argv.getD 1 "")) patchSymbol ≠ NULL)
    (hc : host.call (host.GetProcAddress (host.LoadLibrary (argv.getD 1 "")) patchSymbol)
            NULL NULL (argv.getD 2 "") = none) :
    main host argv log =
      (none, log ++ [Event.LoadLibrary (argv.getD 1 "") (host.LoadLibrary (argv.getD 1 "")),
                     Event.GetProcAddress (host.LoadLibrary (argv.getD 1 "")) patchSymbol
                       (host.GetProcAddress (host.LoadLibrary (argv.getD 1 "")) patchSymbol),
                     Event.call (host.GetProcAddress (host.LoadLibrary (argv.getD 1 "")) patchSymbol)
                       NULL NULL (argv.getD 2 "")]) := by
  simp only [main, h, hl, hp, hc, ne_eq, not_true_eq_false, if_false, if_true,
    List.append_assoc, List.cons_append, List.nil_append]

/-- The run does not read the log it is given: it only appends to it. -/
lemma main_log_irrelevant :
    main host argv log = ((main host argv []).1, log ++ (main host argv []).2) := by
  by_cases h : argv.length = 3
  · by_cases hl : host.LoadLibrary (argv.getD 1 "") = NULL
    · rw [main_load_null host argv log h hl, main_load_null host argv [] h hl]; simp
    · by_cases hp : host.GetProcAddress (host.LoadLibrary (argv.getD 1 "")) patchSymbol = NULL
      · rw [main_patch_null host argv log h hl hp, main_patch_null host argv [] h hl hp]; simp
      · cases hc : host.call (host.GetProcAddress (host.LoadLibrary (argv.getD 1 "")) patchSymbol)
            NULL NULL (argv.getD 2 "") with
        | none =>
          rw [main_call_hangs host argv log h hl hp hc, main_call_hangs host argv [] h hl hp hc]
          simp
        | some v =>
          rw [main_call_returns host argv log h hl hp v hc,
            main_call_returns host argv [] h hl hp v hc]
          simp
  · rw [main_bad_argc host argv log h, main_bad_argc host argv [] h]; simp

/-- Every run takes one of the five paths. -/
lemma main_paths :
    (argv.length ≠ 3 ∧
        main host argv [] = (some 1, [Event.fprintf_stderr usageMessage])) ∨
    (argv.length = 3 ∧ host.LoadLibrary (argv.getD 1 "") = NULL ∧
        main host argv [] =
          (some 1, [Event.LoadLibrary (argv.getD 1 "") NULL,
                    Event.fprintf_stderr loadFailureMessage])) ∨
    (argv.length = 3 ∧ host.LoadLibrary (argv.getD 1 "") ≠ NULL ∧
        host.GetProcAddress (host.LoadLibrary (argv.getD 1 "")) patchSymbol = NULL ∧
        main host argv [] =
          (some 1, [Event.LoadLibrary (argv.getD 1 "") (host.LoadLibrary (argv.getD 1 "")),
                    Event.GetProcAddress (host.LoadLibrary (argv.getD 1 "")) patchSymbol NULL,
                    Event.fprintf_stderr noPatchMessage,
                    Event.FreeLibrary (host.LoadLibrary (argv.getD 1 ""))])) ∨
    (argv.length = 3 ∧ host.LoadLibrary (argv.getD 1 "") ≠ NULL ∧
        host.GetProcAddress (host.LoadLibrary (argv.getD 1 "")) patchSymbol ≠ NULL ∧
        (host.call (host.GetProcAddress (host.LoadLibrary (argv.getD 1 "")) patchSymbol)
            NULL NULL (argv.getD 2 "")).isSome ∧
        main host argv [] =
          (some 0, [Event.LoadLibrary (argv.getD 1 "") (host.LoadLibrary (argv.getD 1 "")),
                    Event.GetProcAddress (host.LoadLibrary (argv.getD 1 "")) patchSymbol
                      (host.GetProcAddress (host.LoadLibrary (argv.getD 1 "")) patchSymbol),
                    Event.call
                      (host.GetProcAddress (host.LoadLibrary (argv.getD 1 "")) patchSymbol)
                      NULL NULL (argv.getD 2 ""),
                    Event.FreeLibrary (host.LoadLibrary (argv.getD 1 ""))])) ∨
    (argv.length = 3 ∧ host.LoadLibrary (argv.getD 1 "") ≠ NULL ∧
        host.GetProcAddress (host.LoadLibrary (argv.getD 1 "")) patchSymbol ≠ NULL ∧
        host.call (host.GetProcAddress (host.LoadLibrary (argv.getD 1 "")) patchSymbol)
            NULL NULL (argv.getD 2 "") = none ∧
        main host argv [] =
          (none, [Event.LoadLibrary (argv.getD 1 "") (host.LoadLibrary (argv.getD 1 "")),
                  Event.GetProcAddress (host.LoadLibrary (argv.getD 1 "")) patchSymbol
                    (host.GetProcAddress (host.LoadLibrary (argv.getD 1 "")) patchSymbol),
                  Event.call
                    (host.GetProcAddress (host.LoadLibrary (argv.getD 1 "")) patchSymbol)
                    NULL NULL (argv.getD 2 "")])) := by
  by_cases h : argv.length = 3
  · by_cases hl : host.LoadLibrary (argv.getD 1 "") = NULL
    · exact Or.inr (Or.inl ⟨h, hl, by simpa using main_load_null host argv [] h hl⟩)
    · by_cases hp : host.GetProcAddress (host.LoadLibrary (argv.getD 1 "")) patchSymbol = NULL
      · exact Or.inr (Or.inr (Or.inl
          ⟨h, hl, hp, by simpa using main_patch_null host argv [] h hl hp⟩))
      · cases hc : host.call (host.GetProcAddress (host.LoadLibrary (argv.getD 1 "")) patchSymbol)
            NULL NULL (argv.getD 2 "") with
        | none =>
          exact Or.inr (Or.inr (Or.inr (Or.inr
            ⟨h, hl, hp, rfl, by simpa using main_call_hangs host argv [] h hl hp hc⟩)))
        | some v =>
          exact Or.inr (Or.inr (Or.inr (Or.inl
            ⟨h, hl, hp, rfl, by simpa using main_call_returns host argv [] h hl hp v hc⟩)))
  · exact Or.inl ⟨h, by simpa using main_bad_argc host argv [] h⟩

/-- The run reads the host only through three answers: the handle for `argv[1]`, the
address of `Patch` in that handle, and whether the call of that address comes back.  Two
hosts that agree on these give the same run, from any log. -/
lemma main_host_agree (host2 : Host)
    (el : host2.LoadLibrary (argv.getD 1 "") = host.LoadLibrary (argv.getD 1 ""))
    (ep : host2.GetProcAddress (host.LoadLibrary (argv.getD 1 "")) patchSymbol =
      host.GetProcAddress (host.LoadLibrary (argv.getD 1 "")) patchSymbol)
    (ec : (host2.call (host.GetProcAddress (host.LoadLibrary (argv.getD 1 "")) patchSymbol)
        NULL NULL (argv.getD 2 "")).isSome =
      (host.call (host.GetProcAddress (host.LoadLibrary (argv.getD 1 "")) patchSymbol)
        NULL NULL (argv.getD 2 "")).isSome) :
    main host2 argv log = main host argv log := by
  by_cases h : argv.length = 3
  · by_cases hl : host.LoadLibrary (argv.getD 1 "") = NULL
    · have hl2 : host2.LoadLibrary (argv.getD 1 "") = NULL := el.trans hl
      rw [main_load_null host argv log h hl, main_load_null host2 argv log h hl2]
    · have hl2 : host2.LoadLibrary (argv.getD 1 "") ≠ NULL := fun e => hl (el.symm.trans e)
      have ep2 : host2.GetProcAddress (host2.LoadLibrary (argv.getD 1 "")) patchSymbol =
          host.GetProcAddress (host.LoadLibrary (argv.getD 1 "")) patchSymbol := by
        rw [el]; exact ep
      by_cases hp : host.GetProcAddress (host.LoadLibrary (argv.getD 1 "")) patchSymbol = NULL
      · rw [main_patch_null host argv log h hl hp,
          main_patch_null host2 argv log h hl2 (ep2.trans hp), el]
      · have hp2 : host2.GetProcAddress (host2.LoadLibrary (argv.getD 1 "")) patchSymbol ≠ NULL :=
          fun e => hp (ep2.symm.trans e)
        cases hc : host.call (host.GetProcAddress (host.LoadLibrary (argv.getD 1 "")) patchSymbol)
            NULL NULL (argv.getD 2 "") with
        | none =>
          have hc2 : host2.call
              (host2.GetProcAddress (host2.LoadLibrary (argv.getD 1 "")) patchSymbol)
              NULL NULL (argv.getD 2 "") = none := by
            rw [ep2]
            rw [hc] at ec
            exact Option.not_isSome_iff_eq_none.mp (by rw [ec]; simp)
          rw [main_call_hangs host argv log h hl hp hc,
            main_call_hangs host2 argv log h hl2 hp2 hc2, ep2, el]
        | some v =>
          have hs : (host2.call
              (host.GetProcAddress (host.LoadLibrary (argv.getD 1 "")) patchSymbol)
              NULL NULL (argv.getD 2 "")).isSome := by
            rw [ec, hc]; rfl
          obtain ⟨v2, hv2⟩ := Option.isSome_iff_exists.mp hs
          have hc2 : host2.call
              (host2.GetProcAddress (host2.LoadLibrary (argv.getD 1 "")) patchSymbol)
              NULL NULL (argv.getD 2 "") = some v2 := by
            rw [ep2]; exact hv2
          rw [main_call_returns host argv log h hl hp v hc,
            main_call_returns host2 argv log h hl2 hp2 v2 hc2, ep2, el]
  · rw [main_bad_argc host argv log h, main_bad_argc host2 argv log h]

end Paths

/-! The three messages are pairwise different. -/

lemma usageMessage_ne_loadFailureMessage : usageMessage ≠ loadFailureMessage := by decide

lemma usageMessage_ne_noPatchMessage : usageMessage ≠ noPatchMessage := by decide

lemma loadFailureMessage_ne_noPatchMessage : loadFailureMessage ≠ noPatchMessage := by decide

/-! Properties of the specification, by identifier. -/

/-- C1: whenever the argument count is not three (program name included), whatever the
arguments are and whatever the host does, `main` only writes the usage message to the
error stream and returns 1. -/
theorem main_usage_error (host : Host) (argv : List String) (log : List Event)
    (h : argv.length ≠ 3) :
    main host argv log = (some 1, log ++ [Event.fprintf_stderr usageMessage]) ∧
      stderrOf (main host argv []).2 = [usageMessage] ∧
      libOps (main host argv []).2 = [] := by
  refine ⟨main_bad_argc host argv log h, ?_, ?_⟩ <;>
    simp [main_bad_argc host argv [] h, stderrOf, libOps, Event.op]

/-- Instance of C1: four user-supplied words instead of two. -/
theorem main_usage_error_witness :
    ["prog", "good.dll", "a", "b"].length ≠ 3 ∧
      (main sampleHost ["prog", "good.dll", "a", "b"] [] =
          (some 1, [] ++ [Event.fprintf_stderr usageMessage]) ∧
        stderrOf (main sampleHost ["prog", "good.dll", "a", "b"] []).2 = [usageMessage] ∧
        libOps (main sampleHost ["prog", "good.dll", "a", "b"] []).2 = []) :=
  ⟨by decide, main_usage_error sampleHost ["prog", "good.dll", "a", "b"] [] (by decide)⟩

/-- C2: with two user arguments and a load that gives no handle, `main` returns 1, its
only events are the load and the write of the load-failure message, and so nothing is
resolved and nothing is called. -/
theorem main_load_failure (host : Host) (prog path arg : String) (log : List Event)
    (hl : host.LoadLibrary path = NULL) :
    main host [prog, path, arg] log =
        (some 1, log ++ [Event.LoadLibrary path NULL,
                         Event.fprintf_stderr loadFailureMessage]) ∧
      stderrOf (main host [prog, path, arg] []).2 = [loadFailureMessage] ∧
      (∀ e ∈ (main host [prog, path, arg] []).2,
        Event.op e ≠ some Op.resolve ∧ Event.op e ≠ some Op.invoke) := by
  have key := fun l => main_load_null host [prog, path, arg] l rfl hl
  simp only [List.getD_cons_succ, List.getD_cons_zero] at key
  refine ⟨key log, ?_, ?_⟩ <;> simp [key [], stderrOf, Event.op]

/-- Instance of C2: a path the sample host does not load. -/
theorem main_load_failure_witness :
    sampleHost.LoadLibrary "missing.dll" = NULL ∧
      main sampleHost ["prog", "missing.dll", "x"] [] =
        (some 1, [Event.LoadLibrary "missing.dll" NULL,
                  Event.fprintf_stderr loadFailureMessage]) :=
  ⟨by decide, (main_load_failure sampleHost "prog" "missing.dll" "x" [] (by decide)).1⟩

/-- C3: with two user arguments, a load that gives a handle and a lookup of the name
`Patch` that gives no address, `main` returns 1; its events are, in order, the load, the
lookup, the write of the resolution-failure message and the unload of the handle the
load gave, which is the last thing it does; nothing is called. -/
theorem main_symbol_not_found (host : Host) (prog path arg : String) (log : List Event)
    (hl : host.LoadLibrary path ≠ NULL)
    (hp : host.GetProcAddress (host.LoadLibrary path) "Patch" = NULL) :
    main host [prog, path, arg] log =
        (some 1, log ++ [Event.LoadLibrary path (host.LoadLibrary path),
                         Event.GetProcAddress (host.LoadLibrary path) "Patch" NULL,
                         Event.fprintf_stderr noPatchMessage,
                         Event.FreeLibrary (host.LoadLibrary path)]) ∧
      stderrOf (main host [prog, path, arg] []).2 = [noPatchMessage] ∧
      (∀ e ∈ (main host [prog, path, arg] []).2, Event.op e ≠ some Op.invoke) ∧
      (main host [prog, path, arg] []).2.getLast? =
        some (Event.FreeLibrary (host.LoadLibrary path)) := by
  have key := fun l => main_patch_null host [prog, path, arg] l rfl hl hp
  simp only [List.getD_cons_succ, List.getD_cons_zero] at key
  refine ⟨key log, ?_, ?_, ?_⟩ <;> simp [key [], stderrOf, Event.op]

/-- Instance of C3: a library of the sample host without `Patch`. -/
theorem main_symbol_not_found_witness :
    sampleHost.LoadLibrary "nopatch.dll" ≠ NULL ∧
      sampleHost.GetProcAddress (sampleHost.LoadLibrary "nopatch.dll") "Patch" = NULL ∧
      main sampleHost ["prog", "nopatch.dll", "x"] [] =
        (some 1, [Event.LoadLibrary "nopatch.dll" 8,
                  Event.GetProcAddress 8 "Patch" NULL,
                  Event.fprintf_stderr noPatchMessage,
                  Event.FreeLibrary 8]) :=
  ⟨by decide, by decide,
    (main_symbol_not_found sampleHost "prog" "nopatch.dll" "x" [] (by decide) (by decide)).1⟩

/-- C4: with two user arguments, a load that gives a handle, a lookup of `Patch` that
gives an address and a call that comes back, `main` returns 0 and its events are, in
order, the load, the lookup, one call of the address found, with two null pointers and
then the second user argument as it was given (the empty string included), and the unload
of the handle; nothing is written to the error stream. -/
theorem main_success (host : Host) (prog path arg : String) (log : List Event)
    (hl : host.LoadLibrary path ≠ NULL)
    (hp : host.GetProcAddress (host.LoadLibrary path) "Patch" ≠ NULL)
    (hc : (host.call (host.GetProcAddress (host.LoadLibrary path) "Patch") NULL NULL arg).isSome) :
    main host [prog, path, arg] log =
        (some 0, log ++ [Event.LoadLibrary path (host.LoadLibrary path),
                         Event.GetProcAddress (host.LoadLibrary path) "Patch"
                           (host.GetProcAddress (host.LoadLibrary path) "Patch"),
                         Event.call (host.GetProcAddress (host.LoadLibrary path) "Patch")
                           NULL NULL arg,
                         Event.FreeLibrary (host.LoadLibrary path)]) ∧
      (libOps (main host [prog, path, arg] []).2).count Op.invoke = 1 ∧
      stderrOf (main host [prog, path, arg] []).2 = [] := by
  obtain ⟨v, hv⟩ := Option.isSome_iff_exists.mp hc
  have key := fun l => main_call_returns host [prog, path, arg] l rfl hl hp v hv
  simp only [List.getD_cons_succ, List.getD_cons_zero] at key
  refine ⟨key log, ?_, ?_⟩ <;> simp [key [], stderrOf, libOps, Event.op]

/-- Instance of C4: the good library of the sample host, with the empty argument string. -/
theorem main_success_witness :
    sampleHost.LoadLibrary "good.dll" ≠ NULL ∧
      sampleHost.GetProcAddress (sampleHost.LoadLibrary "good.dll") "Patch" ≠ NULL ∧
      main sampleHost ["prog", "good.dll", ""] [] =
        (some 0, [Event.LoadLibrary "good.dll" 7,
                  Event.GetProcAddress 7 "Patch" 42,
                  Event.call 42 NULL NULL "",
                  Event.FreeLibrary 7]) :=
  ⟨by decide, by decide,
    (main_success sampleHost "prog" "good.dll" "" [] (by decide) (by decide) (by decide)).1⟩

/-- C5: if every call the run makes comes back, then `main` returns an exit code, the
code is 0 exactly when the argument count is three, the load gives a handle and the
lookup of `Patch` gives an address, and it is 1 otherwise; the same code is returned
whatever the called function gives back, as long as it comes back. -/
theorem main_exit_code (host : Host) (argv : List String)
    (hret : ∀ fn a b s, Event.call fn a b s ∈ (main host argv []).2 →
      (host.call fn a b s).isSome) :
    ∃ c : Int, (main host argv []).1 = some c ∧
      (c = 0 ↔ argv.length = 3 ∧ host.LoadLibrary (argv.getD 1 "") ≠ NULL ∧
        host.GetProcAddress (host.LoadLibrary (argv.getD 1 "")) "Patch" ≠ NULL) ∧
      (c ≠ 0 → c = 1) ∧
      ∀ call2 : FARPROC → Nat → Nat → String → Option Int,
        (∀ fn a b s, (call2 fn a b s).isSome) →
        (main (Host.mk host.LoadLibrary host.GetProcAddress call2) argv []).1 = some c := by
  rcases main_paths host argv with ⟨h, hm⟩ | ⟨h, hl, hm⟩ | ⟨h, hl, hp, hm⟩ |
      ⟨h, hl, hp, hc, hm⟩ | ⟨h, hl, hp, hc, hm⟩
  · refine ⟨1, by rw [hm], ⟨fun h0 => absurd h0 (by decide), fun hh => absurd hh.1 h⟩,
      fun _ => rfl, fun call2 _ => ?_⟩
    rw [main_bad_argc (Host.mk host.LoadLibrary host.GetProcAddress call2) argv [] h]
  · refine ⟨1, by rw [hm], ⟨fun h0 => absurd h0 (by decide), fun hh => absurd hl hh.2.1⟩,
      fun _ => rfl, fun call2 _ => ?_⟩
    rw [main_load_null (Host.mk host.LoadLibrary host.GetProcAddress call2) argv [] h hl]
  · refine ⟨1, by rw [hm], ⟨fun h0 => absurd h0 (by decide), fun hh => absurd hp hh.2.2⟩,
      fun _ => rfl, fun call2 _ => ?_⟩
    rw [main_patch_null (Host.mk host.LoadLibrary host.GetProcAddress call2) argv [] h hl hp]
  · refine ⟨0, by rw [hm], ⟨fun _ => ⟨h, hl, hp⟩, fun _ => rfl⟩,
      fun h0 => absurd rfl h0, fun call2 h2 => ?_⟩
    obtain ⟨v, hv⟩ := Option.isSome_iff_exists.mp
      (h2 (host.GetProcAddress (host.LoadLibrary (argv.getD 1 "")) patchSymbol)
        NULL NULL (argv.getD 2 ""))
    rw [main_call_returns (Host.mk host.LoadLibrary host.GetProcAddress call2)
      argv [] h hl hp v hv]
  · exfalso
    have hmem : Event.call (host.GetProcAddress (host.LoadLibrary (argv.getD 1 "")) patchSymbol)
        NULL NULL (argv.getD 2 "") ∈ (main host argv []).2 := by
      rw [hm]; simp
    have := hret _ _ _ _ hmem
    rw [hc] at this
    exact absurd this (by simp)

/-- Instance of C5: a successful run on the sample host, where every call comes back. -/
theorem main_exit_code_witness :
    ∃ c : Int, (main sampleHost ["prog", "good.dll", "a"] []).1 = some c ∧
      (c = 0 ↔ ["prog", "good.dll", "a"].length = 3 ∧
        sampleHost.LoadLibrary (["prog", "good.dll", "a"].getD 1 "") ≠ NULL ∧
        sampleHost.GetProcAddress
          (sampleHost.LoadLibrary (["prog", "good.dll", "a"].getD 1 "")) "Patch" ≠ NULL) ∧
      (c ≠ 0 → c = 1) ∧
      ∀ call2 : FARPROC → Nat → Nat → String → Option Int,
        (∀ fn a b s, (call2 fn a b s).isSome) →
        (main (Host.mk sampleHost.LoadLibrary sampleHost.GetProcAddress call2)
          ["prog", "good.dll", "a"] []).1 = some c :=
  main_exit_code sampleHost ["prog", "good.dll", "a"] (fun _ _ _ _ _ => rfl)

/-- C6: in every run that returns, the handle is released exactly when it was acquired.
If the argument count is three and the load gave a handle, the log holds exactly one
unload, it is the unload of that handle, and it is the last library operation of the
run (on the success path and on the resolution-failure path alike); if no load was
tried or the load gave no handle, the log holds no unload. -/
theorem main_releases_handle (host : Host) (argv : List String) (c : Int)
    (hret : (main host argv []).1 = some c) :
    (argv.length = 3 ∧ host.LoadLibrary (argv.getD 1 "") ≠ NULL →
        (main host argv []).2.count (Event.FreeLibrary (host.LoadLibrary (argv.getD 1 ""))) = 1 ∧
        (libOps (main host argv []).2).count Op.unload = 1 ∧
        (libEvents (main host argv []).2).getLast? =
          some (Event.FreeLibrary (host.LoadLibrary (argv.getD 1 "")))) ∧
      (argv.length ≠ 3 ∨ host.LoadLibrary (argv.getD 1 "") = NULL →
        Op.unload ∉ libOps (main host argv []).2) := by
  rcases main_paths host argv with ⟨h, hm⟩ | ⟨h, hl, hm⟩ | ⟨h, hl, hp, hm⟩ |
      ⟨h, hl, hp, hc, hm⟩ | ⟨h, hl, hp, hc, hm⟩
  · refine ⟨fun hh => absurd hh.1 h, fun _ => ?_⟩
    simp [hm, libOps, Event.op]
  · refine ⟨fun hh => absurd hl hh.2, fun _ => ?_⟩
    simp [hm, libOps, Event.op]
  · refine ⟨fun _ => ?_, fun hh => ?_⟩
    · simp [hm, libOps, libEvents, Event.op]
    · rcases hh with hh | hh
      · exact absurd h hh
      · exact absurd hh hl
  · refine ⟨fun _ => ?_, fun hh => ?_⟩
    · simp [hm, libOps, libEvents, Event.op]
    · rcases hh with hh | hh
      · exact absurd h hh
      · exact absurd hh hl
  · rw [hm] at hret
    exact absurd hret (by simp)

/-- Instance of C6: the resolution-failure path on the sample host unloads handle 8 once. -/
theorem main_releases_handle_witness :
    (main sampleHost ["prog", "nopatch.dll", "a"] []).1 = some 1 ∧
      (main sampleHost ["prog", "nopatch.dll", "a"] []).2.count (Event.FreeLibrary 8) = 1 :=
  ⟨by decide,
    ((main_releases_handle sampleHost ["prog", "nopatch.dll", "a"] 1 (by decide)).1
      ⟨by decide, by decide⟩).1⟩

/-- C7: the library operations of every run occur in the order load, resolve, invoke,
unload, each at most once.  A lookup occurs only after a load that gave the handle it
looks in, and that handle is not null; a call occurs only after the lookup of `Patch`
that gave the called address, in a handle a load gave, and the address is not null; an
unload releases a handle that a load gave, and after it nothing is looked up and nothing
is called. -/
theorem main_operation_order (host : Host) (argv : List String) :
    List.Sublist (libOps (main host argv []).2) [Op.load, Op.resolve, Op.invoke, Op.unload] ∧
      (∀ pre post lib name r,
        (main host argv []).2 = pre ++ Event.GetProcAddress lib name r :: post →
          lib ≠ NULL ∧ ∃ path, Event.LoadLibrary path lib ∈ pre) ∧
      (∀ pre post fn a b s,
        (main host argv []).2 = pre ++ Event.call fn a b s :: post →
          fn ≠ NULL ∧ ∃ path lib, Event.LoadLibrary path lib ∈ pre ∧
            Event.GetProcAddress lib "Patch" fn ∈ pre) ∧
      (∀ pre post lib,
        (main host argv []).2 = pre ++ Event.FreeLibrary lib :: post →
          lib ≠ NULL ∧ (∃ path, Event.LoadLibrary path lib ∈ pre) ∧
            ∀ e ∈ post, Event.op e ≠ some Op.resolve ∧ Event.op e ≠ some Op.invoke) := by
  rcases main_paths host argv with ⟨h, hm⟩ | ⟨h, hl, hm⟩ | ⟨h, hl, hp, hm⟩ |
      ⟨h, hl, hp, hc, hm⟩ | ⟨h, hl, hp, hc, hm⟩
  all_goals
    rw [hm]
    clear hm
    simp only [patchSymbol] at *
    generalize host.GetProcAddress (host.LoadLibrary (argv.getD 1 "")) "Patch" = f at *
    generalize host.LoadLibrary (argv.getD 1 "") = l at *
    generalize argv.getD 1 "" = p at *
    generalize argv.getD 2 "" = s at *
    refine ⟨by simp [libOps, Event.op], ?_, ?_, ?_⟩
  all_goals
    intro pre
    rcases pre with _ | ⟨p1, _ | ⟨p2, _ | ⟨p3, _ | ⟨p4, _ | ⟨p5, pre⟩⟩⟩⟩⟩ <;>
      intros <;> rename_i heq <;>
      simp only [List.nil_append, List.cons_append, List.cons.injEq, Event.LoadLibrary.injEq,
        Event.GetProcAddress.injEq, Event.call.injEq, Event.FreeLibrary.injEq, reduceCtorEq,
        false_and, and_false, List.nil_eq, List.append_eq_nil] at heq
  all_goals
    casesm* _ ∧ _
    subst_vars
  all_goals
    first
      | exact ⟨hl, p, by simp⟩
      | exact ⟨hp, p, l, by simp, by simp⟩
      | exact ⟨hl, ⟨p, by simp⟩, by simp [Event.op]⟩

/-- C9: each of the three failures returns 1 and writes exactly one message, a run whose
load and lookup both succeed writes nothing, and the three messages are pairwise
different; so what a run wrote to the error stream tells which of the four outcomes
took place. -/
theorem stderr_identifies_outcome :
    (usageMessage ≠ loadFailureMessage ∧ usageMessage ≠ noPatchMessage ∧
      loadFailureMessage ≠ noPatchMessage) ∧
    ∀ (host : Host) (argv : List String),
      (stderrOf (main host argv []).2 = [usageMessage] ↔ argv.length ≠ 3) ∧
      (stderrOf (main host argv []).2 = [loadFailureMessage] ↔
        argv.length = 3 ∧ host.LoadLibrary (argv.getD 1 "") = NULL) ∧
      (stderrOf (main host argv []).2 = [noPatchMessage] ↔
        argv.length = 3 ∧ host.LoadLibrary (argv.getD 1 "") ≠ NULL ∧
          host.GetProcAddress (host.LoadLibrary (argv.getD 1 "")) "Patch" = NULL) ∧
      (stderrOf (main host argv []).2 = [] ↔
        argv.length = 3 ∧ host.LoadLibrary (argv.getD 1 "") ≠ NULL ∧
          host.GetProcAddress (host.LoadLibrary (argv.getD 1 "")) "Patch" ≠ NULL) ∧
      (¬(argv.length = 3 ∧ host.LoadLibrary (argv.getD 1 "") ≠ NULL ∧
          host.GetProcAddress (host.LoadLibrary (argv.getD 1 "")) "Patch" ≠ NULL) →
        (main host argv []).1 = some 1) := by
  refine ⟨⟨usageMessage_ne_loadFailureMessage, usageMessage_ne_noPatchMessage,
    loadFailureMessage_ne_noPatchMessage⟩, fun host argv => ?_⟩
  have d1 := usageMessage_ne_loadFailureMessage
  have d2 := usageMessage_ne_noPatchMessage
  have d3 := loadFailureMessage_ne_noPatchMessage
  rcases main_paths host argv with ⟨h, hm⟩ | ⟨h, hl, hm⟩ | ⟨h, hl, hp, hm⟩ |
      ⟨h, hl, hp, hc, hm⟩ | ⟨h, hl, hp, hc, hm⟩
  all_goals
    rw [hm]
    clear hm
    simp only [patchSymbol] at *
    generalize host.GetProcAddress (host.LoadLibrary (argv.getD 1 "")) "Patch" = f at *
    generalize host.LoadLibrary (argv.getD 1 "") = l at *
    simp only [stderrOf, List.filterMap_cons, List.filterMap_nil, List.cons.injEq, and_true,
      reduceCtorEq, ne_eq, not_true_eq_false, not_false_eq_true, false_implies, true_implies,
      *, Ne.symm d1, Ne.symm d2, Ne.symm d3, and_self, and_false,
      false_and, true_and]

/-- C10: two consecutive runs of a two-argument invocation, the second started from the
log the first left, on hosts that give the same three answers both times (the handle for
the path, the address of `Patch` in it, whether the call comes back) and may differ in
everything else, what the called function gives back included.  The second run returns
the same exit code as the first and appends the same events, which are those of a run
from the empty log: nothing left by the first run is read.  When the load and the lookup
succeed and the call comes back, each run returns 0, writes nothing to the error stream
and is exactly the sequence load, resolve, invoke, unload. -/
theorem main_repeatable (host1 host2 : Host) (prog path arg : String) (log : List Event)
    (el : host2.LoadLibrary path = host1.LoadLibrary path)
    (ep : host2.GetProcAddress (host1.LoadLibrary path) "Patch" =
      host1.GetProcAddress (host1.LoadLibrary path) "Patch")
    (ec : (host2.call (host1.GetProcAddress (host1.LoadLibrary path) "Patch")
        NULL NULL arg).isSome =
      (host1.call (host1.GetProcAddress (host1.LoadLibrary path) "Patch")
        NULL NULL arg).isSome) :
    (main host2 [prog, path, arg] (main host1 [prog, path, arg] log).2).1 =
        (main host1 [prog, path, arg] log).1 ∧
      (main host1 [prog, path, arg] log).2 = log ++ (main host1 [prog, path, arg] []).2 ∧
      (main host2 [prog, path, arg] (main host1 [prog, path, arg] log).2).2 =
        (log ++ (main host1 [prog, path, arg] []).2) ++ (main host1 [prog, path, arg] []).2 ∧
      (host1.LoadLibrary path ≠ NULL →
        host1.GetProcAddress (host1.LoadLibrary path) "Patch" ≠ NULL →
        (host1.call (host1.GetProcAddress (host1.LoadLibrary path) "Patch")
          NULL NULL arg).isSome →
        main host1 [prog, path, arg] [] =
            (some 0, [Event.LoadLibrary path (host1.LoadLibrary path),
                      Event.GetProcAddress (host1.LoadLibrary path) "Patch"
                        (host1.GetProcAddress (host1.LoadLibrary path) "Patch"),
                      Event.call (host1.GetProcAddress (host1.LoadLibrary path) "Patch")
                        NULL NULL arg,
                      Event.FreeLibrary (host1.LoadLibrary path)]) ∧
          libOps (main host1 [prog, path, arg] []).2 =
            [Op.load, Op.resolve, Op.invoke, Op.unload] ∧
          stderrOf (main host1 [prog, path, arg] []).2 = [] ∧
          main host2 [prog, path, arg] (main host1 [prog, path, arg] log).2 =
            (some 0,
              (log ++ [Event.LoadLibrary path (host1.LoadLibrary path),
                       Event.GetProcAddress (host1.LoadLibrary path) "Patch"
                         (host1.GetProcAddress (host1.LoadLibrary path) "Patch"),
                       Event.call (host1.GetProcAddress (host1.LoadLibrary path) "Patch")
                         NULL NULL arg,
                       Event.FreeLibrary (host1.LoadLibrary path)]) ++
                [Event.LoadLibrary path (host1.LoadLibrary path),
                 Event.GetProcAddress (host1.LoadLibrary path) "Patch"
                   (host1.GetProcAddress (host1.LoadLibrary path) "Patch"),
                 Event.call (host1.GetProcAddress (host1.LoadLibrary path) "Patch")
                   NULL NULL arg,
                 Event.FreeLibrary (host1.LoadLibrary path)])) := by
  have agree := fun l => main_host_agree host1 [prog, path, arg] l host2 el ep ec
  have e1 := main_log_irrelevant host1 [prog, path, arg] log
  have e2 := main_log_irrelevant host1 [prog, path, arg] (main host1 [prog, path, arg] log).2
  have first : (main host1 [prog, path, arg] log).2 =
      log ++ (main host1 [prog, path, arg] []).2 := by rw [e1]
  have second : main host2 [prog, path, arg] (main host1 [prog, path, arg] log).2 =
      ((main host1 [prog, path, arg] []).1,
        (log ++ (main host1 [prog, path, arg] []).2) ++ (main host1 [prog, path, arg] []).2) := by
    rw [agree, e2, first]
  refine ⟨?_, first, ?_, fun hl hp hc => ?_⟩
  · rw [second, e1]
  · rw [second]
  · obtain ⟨v, hv⟩ := Option.isSome_iff_exists.mp hc
    have key := main_call_returns host1 [prog, path, arg] [] rfl hl hp v hv
    simp only [List.getD_cons_succ, List.getD_cons_zero, List.nil_append] at key
    refine ⟨key, ?_, ?_, ?_⟩
    · simp [key, libOps, Event.op]
    · simp [key, stderrOf]
    · rw [second, key]
      rfl

/-- Instance of C10: the first run on the sample host, the second on a host that agrees
with it on `good.dll` and `Patch` only; started from a log that already holds an entry. -/
theorem main_repeatable_witness :
    main sampleHost ["prog", "good.dll", "a"] [Event.fprintf_stderr "earlier"] =
        (some 0, [Event.fprintf_stderr "earlier",
                  Event.LoadLibrary "good.dll" 7, Event.GetProcAddress 7 "Patch" 42,
                  Event.call 42 NULL NULL "a", Event.FreeLibrary 7]) ∧
      main otherHost ["prog", "good.dll", "a"]
          (main sampleHost ["prog", "good.dll", "a"] [Event.fprintf_stderr "earlier"]).2 =
        (some 0, [Event.fprintf_stderr "earlier",
                  Event.LoadLibrary "good.dll" 7, Event.GetProcAddress 7 "Patch" 42,
                  Event.call 42 NULL NULL "a", Event.FreeLibrary 7,
                  Event.LoadLibrary "good.dll" 7, Event.GetProcAddress 7 "Patch" 42,
                  Event.call 42 NULL NULL "a", Event.FreeLibrary 7]) :=
  ⟨by decide,
    ((main_repeatable sampleHost otherHost "prog" "good.dll" "a" [Event.fprintf_stderr "earlier"]
      (by decide) (by decide) (by decide)).2.2.2 (by decide) (by decide) (by decide)).2.2.2⟩

end RunPatchClient
